import Mathlib

/-!
Shallow embedding of the assistant repository's intent router and streaming
orchestrator, translated from `src/modules/neuro_symbolic.rs`,
`src/modules/probabilistic.rs` and `src/ipc/orchestrator.rs`.

Text is modelled as `List Char`.  Rust's `str::len` counts bytes; all
length bounds in the claims are phrased in characters and all concrete
inputs used below are ASCII, where the two coincide, so lengths are
modelled as character counts.  The deterministic backend adapter
(`DeterministicModule::execute_logic`, which wraps the external `evalexpr`
crate) is kept opaque, as a parameter `det : Text → Except Text Text`,
matching its use in the orchestrator.  Output token streams are modelled
as the finite list of tokens the stream yields when drained to completion.
-/

abbrev Text := List Char

/-- Substring test: `containsSub needle hay` is true iff `needle` occurs as a
contiguous substring of `hay`.  Models Rust `str::contains`. -/
def containsSub (needle : Text) : Text → Bool
  | [] => needle.isEmpty
  | c :: rest => needle.isPrefixOf (c :: rest) || containsSub needle rest

/-- Intent classification for query routing, from `neuro_symbolic.rs`. -/
inductive Intent where
  | Creative
  | Logical
  | Hybrid
deriving DecidableEq, Repr

/-- Keywords indicating mathematical/logical operations
(`classify_intent`, `neuro_symbolic.rs` lines 57-60). -/
def math_keywords : List Text :=
  ["calculate", "solve", "prove", "verify", "compute",
   "=", "+", "-", "*", "/", "^", "%", "math", "equation"].map String.toList

/-- Keywords indicating creative/explanatory requests
(`classify_intent`, `neuro_symbolic.rs` lines 63-66). -/
def creative_keywords : List Text :=
  ["write", "suggest", "explain", "describe", "why",
   "how does", "what is", "tell me about", "story", "poem"].map String.toList

/-- Lowercasing of the query, models Rust `str::to_lowercase` (identical on
ASCII, which is all the fixed keyword sets contain). -/
def textToLower (t : Text) : Text := t.map Char.toLower

/-- `has_math` of `classify_intent`: some math keyword occurs in the
lowercased query. -/
def has_math (query_lower : Text) : Bool :=
  math_keywords.any fun kw => containsSub kw query_lower

/-- `has_creative` of `classify_intent`: some creative keyword occurs in the
lowercased query. -/
def has_creative (query_lower : Text) : Bool :=
  creative_keywords.any fun kw => containsSub kw query_lower

/-- `NeuroSymbolicRouter::classify_intent` (`neuro_symbolic.rs` lines 53-88):
keyword-table dispatch, with a digit check (`char::is_ascii_digit` on the
original, non-lowercased query) breaking the no-keyword tie. -/
def classify_intent (query : Text) : Intent :=
  let query_lower := textToLower query
  match has_math query_lower, has_creative query_lower with
  | true, false => .Logical
  | false, true => .Creative
  | true, true => .Hybrid
  | false, false =>
    if query.any Char.isDigit then .Hybrid else .Creative

/-- Configuration of the probabilistic module (`ModelConfig`,
`probabilistic.rs`).  `temperature` is an `f32` rendered into the mock
draft text; its decimal rendering is kept abstract as text. -/
structure ModelConfig where
  max_tokens : Nat
  temperature : Text
deriving DecidableEq, Repr

/-- The generative adapter's prompt length limit
(`ProbabilisticModule::infer`, `probabilistic.rs` line 74). -/
def promptMaxLen : Nat := 10000

/-- `ProbabilisticModule::infer` (`probabilistic.rs` lines 69-95): rejects the
empty prompt and prompts over 10000 characters, otherwise returns the mock
draft `prompt ++ "\n\n[LLM draft - temp: t, max_tokens: m]"`. -/
def infer (cfg : ModelConfig) (prompt : Text) : Except Text Text :=
  if prompt = [] then
    .error "Prompt cannot be empty".toList
  else if prompt.length > promptMaxLen then
    .error "Prompt exceeds maximum length of 10000 characters".toList
  else
    .ok (prompt ++ "\n\n[LLM draft - temp: ".toList ++ cfg.temperature
         ++ ", max_tokens: ".toList ++ (Nat.repr cfg.max_tokens).toList
         ++ "]".toList)

/-- Accumulator-style whitespace splitter; models Rust
`str::split_whitespace` (empty pieces are skipped). -/
def wordsAux : Text → Text → List Text
  | [], cur => if cur = [] then [] else [cur.reverse]
  | c :: rest, cur =>
    if c.isWhitespace then
      if cur = [] then wordsAux rest []
      else cur.reverse :: wordsAux rest []
    else wordsAux rest (c :: cur)

/-- Whitespace splitting of a prompt into words, skipping empty pieces. -/
def splitWhitespace (t : Text) : List Text := wordsAux t []

/-- `ProbabilisticModule::stream_tokens` (`probabilistic.rs` lines 98-137),
as the list of tokens a consumer draining the channel receives: each
whitespace-separated word of the prompt with a trailing space, then the
`"\n"` completion token. -/
def stream_tokens (prompt : Text) : List Text :=
  (splitWhitespace prompt).map (fun w => w ++ [' ']) ++ [['\n']]

/-- Leading-digit run of a text, with the remainder
(the greedy `\d+` of the claim-extraction patterns). -/
def takeDigits : Text → Text × Text
  | [] => ([], [])
  | c :: rest =>
    if c.isDigit then
      let (d, r) := takeDigits rest
      (c :: d, r)
    else ([], c :: rest)

/-- Greedy match of the decimal-number pattern
`\d+(?:\.\d+)?` at the head of the text: the matched characters and the
remainder, or `none` if the text does not start with a digit. -/
def matchNumber (t : Text) : Option (Text × Text) :=
  let (d, r) := takeDigits t
  if d = [] then none
  else
    match r with
    | '.' :: r2 =>
      let (d2, r3) := takeDigits r2
      if d2 = [] then some (d, r) else some (d ++ '.' :: d2, r3)
    | _ => some (d, r)

/-- Leading-whitespace run (the greedy `\s*` of the expression pattern). -/
def takeWs : Text → Text × Text
  | [] => ([], [])
  | c :: rest =>
    if c.isWhitespace then
      let (w, r) := takeWs rest
      (c :: w, r)
    else ([], c :: rest)

/-- The four arithmetic operators of the expression pattern `[+\-*/]`. -/
def isOpChar (c : Char) : Bool :=
  c = '+' || c = '-' || c = '*' || c = '/'

/-- Greedy match of one `\s*[+\-*/]\s*\d+(?:\.\d+)?` group at the head of
the text. -/
def matchOpNum (t : Text) : Option (Text × Text) :=
  let (w1, r1) := takeWs t
  match r1 with
  | [] => none
  | c :: r2 =>
    if isOpChar c then
      let (w2, r3) := takeWs r2
      match matchNumber r3 with
      | some (num, r4) => some (w1 ++ c :: (w2 ++ num), r4)
      | none => none
    else none

/-- Greedy repetition of operator-number groups (fuelled; every successful
group consumes at least one character, so fuel = remaining length
suffices). -/
def exprTailGo : Nat → Text → Text × Text
  | 0, t => ([], t)
  | fuel + 1, t =>
    match matchOpNum t with
    | some (g, r) =>
      let (g2, r2) := exprTailGo fuel r
      (g ++ g2, r2)
    | none => ([], t)

/-- Greedy match of the full arithmetic-expression pattern
`\d+(?:\.\d+)?(?:\s*[+\-*/]\s*\d+(?:\.\d+)?)+` at the head of the text
(`EXPR_RE` of `extract_claims`, `orchestrator.rs` line 174). -/
def matchExpr (t : Text) : Option (Text × Text) :=
  match matchNumber t with
  | some (num, r) =>
    match matchOpNum r with
    | some (g, r2) =>
      let (g2, r3) := exprTailGo r2.length r2
      some (num ++ g ++ g2, r3)
    | none => none
  | none => none

/-- Leftmost, non-overlapping iteration of a matcher over the text, models
`Regex::find_iter`: try the matcher at each position, on a match emit it
and resume after it, otherwise advance one character.  Fuelled by the
text length (each step consumes at least one character). -/
def findIterGo (m : Text → Option (Text × Text)) : Nat → Text → List Text
  | 0, _ => []
  | _, [] => []
  | fuel + 1, c :: rest =>
    match m (c :: rest) with
    | some (tok, rem) => tok :: findIterGo m fuel rem
    | none => findIterGo m fuel rest

/-- All leftmost, non-overlapping matches of a matcher in a text. -/
def findIter (m : Text → Option (Text × Text)) (t : Text) : List Text :=
  findIterGo m t.length t

/-- `extract_claims` (`orchestrator.rs` lines 170-194): all arithmetic
expression matches; if there are none, the first five bare numeric
literals. -/
def extract_claims (text : Text) : List Text :=
  let claims := findIter matchExpr text
  if claims.isEmpty then (findIter matchNumber text).take 5
  else claims

/-- `OrchestratorStats` (`orchestrator.rs` lines 14-20): the four atomic
counters, modelled as naturals. -/
structure OrchestratorStats where
  queries_processed : Nat
  creative_queries : Nat
  logical_queries : Nat
  hybrid_queries : Nat
deriving DecidableEq, Repr

/-- `OrchestratorStats::default()`, used at orchestrator construction
(`Orchestrator::new`, `orchestrator.rs` line 29): all counters zero. -/
def OrchestratorStats.init : OrchestratorStats :=
  { queries_processed := 0, creative_queries := 0,
    logical_queries := 0, hybrid_queries := 0 }

/-- The orchestrator's query length limit (`process_query`,
`orchestrator.rs` line 41). -/
def queryMaxLen : Nat := 50000

/-- `Orchestrator::handle_creative` (`orchestrator.rs` lines 70-74): the
generative token stream forwarded unchanged. -/
def handle_creative (query : Text) : List Text :=
  stream_tokens query

/-- `Orchestrator::handle_logical` (`orchestrator.rs` lines 77-92): one
deterministic-adapter call; its result as the single token on success, an
error-tagged message as the single token on failure. -/
def handle_logical (det : Text → Except Text Text) (query : Text) : List Text :=
  match det query with
  | .ok result => [result]
  | .error e => ["[deterministic error] ".toList ++ e]

/-- The claim-verification loop of `Orchestrator::handle_hybrid`
(`orchestrator.rs` lines 112-127): the concatenated report lines together
with the verified and failed counts, in claim order. -/
def verifyClaims (det : Text → Except Text Text) : List Text → Text × Nat × Nat
  | [] => ([], 0, 0)
  | claim :: rest =>
    let (tail, vc, fc) := verifyClaims det rest
    match det claim with
    | .ok v =>
      ("✓ Claim: ".toList ++ claim ++ " → ".toList ++ v ++ ['\n'] ++ tail,
       vc + 1, fc)
    | .error e =>
      ("✗ Claim: ".toList ++ claim ++ " → Error: ".toList ++ e ++ ['\n'] ++ tail,
       vc, fc + 1)

/-- The verification-report text of `Orchestrator::handle_hybrid`
(`orchestrator.rs` lines 129-134): the report lines, prefixed by the
counts header when at least one claim was processed. -/
def renderVerification (det : Text → Except Text Text) (claims : List Text) : Text :=
  let (body, vc, fc) := verifyClaims det claims
  if vc > 0 || fc > 0 then
    "\n[Verification Results: ".toList ++ (Nat.repr vc).toList
      ++ " verified, ".toList ++ (Nat.repr fc).toList
      ++ " failed]\n".toList ++ body
  else body

/-- `Orchestrator::handle_hybrid` (`orchestrator.rs` lines 95-148): on a
successful `infer`, the forwarded generative stream followed by the single
verification-report token; on `infer` failure, the returned stream is the
single error-tagged token (the generative stream obtained at line 99 is
dropped, not forwarded). -/
def handle_hybrid (det : Text → Except Text Text) (cfg : ModelConfig)
    (query : Text) : List Text :=
  match infer cfg query with
  | .ok draft_full =>
    let claims := extract_claims draft_full
    stream_tokens query ++ [renderVerification det claims]
  | .error e =>
    ["[error] Failed to process hybrid query: ".toList ++ e]

/-- The post-validation part of `Orchestrator::process_query`
(`orchestrator.rs` lines 47-66): classify, bump the counters, dispatch by
intent. -/
def dispatch (det : Text → Except Text Text) (cfg : ModelConfig)
    (stats : OrchestratorStats) (query : Text) :
    List Text × OrchestratorStats :=
  let intent := classify_intent query
  let stats1 := { stats with queries_processed := stats.queries_processed + 1 }
  match intent with
  | .Creative =>
    (handle_creative query,
     { stats1 with creative_queries := stats1.creative_queries + 1 })
  | .Logical =>
    (handle_logical det query,
     { stats1 with logical_queries := stats1.logical_queries + 1 })
  | .Hybrid =>
    (handle_hybrid det cfg query,
     { stats1 with hybrid_queries := stats1.hybrid_queries + 1 })

/-- `Orchestrator::process_query` (`orchestrator.rs` lines 35-67): an empty
query or a query over the length limit short-circuits to a single error
token with no classification and no counter change; otherwise the query is
classified and dispatched.  The result pairs the drained output token list
with the orchestrator's counters after the call. -/
def process_query (det : Text → Except Text Text) (cfg : ModelConfig)
    (stats : OrchestratorStats) (query : Text) :
    List Text × OrchestratorStats :=
  if query = [] then
    (["[error] Query cannot be empty".toList], stats)
  else if query.length > queryMaxLen then
    (["[error] Query exceeds maximum length".toList], stats)
  else
    dispatch det cfg stats query

/-! ### Sample backends and configuration used for concrete runs -/

/-- A sample deterministic adapter that verifies every claim with result
`"R"`. -/
def detOk : Text → Except Text Text := fun _ => .ok "R".toList

/-- A sample deterministic adapter answering `"4"`, the evaluator's result
for `"2 + 2"`. -/
def detFour : Text → Except Text Text := fun _ => .ok "4".toList

/-- A sample model configuration (the defaults of `load_local_llm`:
`max_tokens = 2048`, `temperature = 0.7`). -/
def sampleCfg : ModelConfig := { max_tokens := 2048, temperature := "0.7".toList }

/-- Success test on the deterministic adapter's outcome for one claim. -/
def claimOk (det : Text → Except Text Text) (claim : Text) : Bool :=
  match det claim with
  | .ok _ => true
  | .error _ => false

/-- One verification-report line: success marker + claim text + `" → "` +
result, or failure marker + claim text + `" → Error: "` + message. -/
def reportLine (det : Text → Except Text Text) (claim : Text) : Text :=
  match det claim with
  | .ok v => "✓ Claim: ".toList ++ claim ++ " → ".toList ++ v ++ ['\n']
  | .error e => "✗ Claim: ".toList ++ claim ++ " → Error: ".toList ++ e ++ ['\n']

/-- The report template stated spec-side: a one-line header carrying the
verified and failed counts, present exactly when at least one claim was
processed, followed by one templated line per claim in claim order. -/
def reportSpec (det : Text → Except Text Text) (claims : List Text) : Text :=
  (if claims.isEmpty then []
   else "\n[Verification Results: ".toList
        ++ (Nat.repr (claims.countP (claimOk det))).toList
        ++ " verified, ".toList
        ++ (Nat.repr (claims.countP fun c => !(claimOk det c))).toList
        ++ " failed]\n".toList)
  ++ (claims.map (reportLine det)).flatten

/-! ### Helper lemmas -/

/-- Characters of a substring occur in the enclosing text. -/
lemma mem_of_containsSub {n : Text} : ∀ {h : Text}, containsSub n h = true →
    ∀ c ∈ n, c ∈ h := by
  intro h
  induction h with
  | nil =>
    intro hc c hcn
    rw [containsSub, List.isEmpty_iff] at hc
    subst hc
    cases hcn
  | cons a rest ih =>
    intro hc c hcn
    rw [containsSub, Bool.or_eq_true] at hc
    rcases hc with hp | hr
    · exact (List.isPrefixOf_iff_prefix.mp hp).subset hcn
    · exact List.mem_cons_of_mem a (ih hr c hcn)

/-- A keyword containing a character other than `'1'` never occurs in a
repeated-`'1'` text. -/
lemma containsSub_replicate_one {kw : Text} {c : Char} (hc : c ∈ kw)
    (hne : c ≠ '1') (n : Nat) :
    containsSub kw (List.replicate n '1') = false := by
  cases hb : containsSub kw (List.replicate n '1')
  · rfl
  · exact absurd (List.eq_of_mem_replicate (mem_of_containsSub hb c hc)) hne

/-- No keyword of a list whose members all contain a non-`'1'` character
occurs in a repeated-`'1'` text. -/
lemma keywords_any_replicate_one (kws : List Text) (n : Nat)
    (hk : ∀ kw ∈ kws, ∃ c ∈ kw, c ≠ '1') :
    (kws.any fun kw => containsSub kw (List.replicate n '1')) = false := by
  rw [List.any_eq_false]
  intro kw hkw
  obtain ⟨c, hc, hne⟩ := hk kw hkw
  simp [containsSub_replicate_one hc hne n]

/-- Math keywords never fire on a repeated-`'1'` query. -/
lemma has_math_replicate_one (n : Nat) :
    has_math (List.replicate n '1') = false :=
  keywords_any_replicate_one math_keywords n (by decide)

/-- Creative keywords never fire on a repeated-`'1'` query. -/
lemma has_creative_replicate_one (n : Nat) :
    has_creative (List.replicate n '1') = false :=
  keywords_any_replicate_one creative_keywords n (by decide)

/-- A nonempty repeated-`'1'` query classifies as Hybrid: no keywords fire
and the text contains digits. -/
lemma classify_replicate_one {n : Nat} (h : n ≠ 0) :
    classify_intent (List.replicate n '1') = .Hybrid := by
  obtain ⟨m, rfl⟩ := Nat.exists_eq_succ_of_ne_zero h
  have hlow : textToLower (List.replicate (m + 1) '1') = List.replicate (m + 1) '1' := by
    rw [textToLower, List.map_replicate]
    have h1 : Char.toLower '1' = '1' := by decide
    rw [h1]
  have hd : Char.isDigit '1' = true := by decide
  simp only [classify_intent, hlow, has_math_replicate_one,
    has_creative_replicate_one]
  rw [List.replicate_succ]
  simp [hd]

/-- A prompt over the limit is rejected by `infer` with the length error. -/
lemma infer_gt_limit (cfg : ModelConfig) {p : Text} (h : promptMaxLen < p.length) :
    infer cfg p = .error "Prompt exceeds maximum length of 10000 characters".toList := by
  have hne : p ≠ [] := by
    intro he
    subst he
    simp [promptMaxLen] at h
  rw [infer, if_neg hne, if_pos h]

/-- The total counter is bumped by exactly one on every dispatch. -/
lemma dispatch_total (det : Text → Except Text Text) (cfg : ModelConfig)
    (stats : OrchestratorStats) (q : Text) :
    (dispatch det cfg stats q).2.queries_processed = stats.queries_processed + 1 := by
  cases hI : classify_intent q <;> simp [dispatch, hI]

/-- A valid Hybrid query whose `infer` fails produces only the single
error-tagged token, with the hybrid and total counters bumped. -/
lemma process_query_hybrid_infer_error (det : Text → Except Text Text)
    (cfg : ModelConfig) (stats : OrchestratorStats) {query e : Text}
    (hne : query ≠ []) (hlen : query.length ≤ queryMaxLen)
    (hint : classify_intent query = .Hybrid)
    (herr : infer cfg query = .error e) :
    process_query det cfg stats query =
      (["[error] Failed to process hybrid query: ".toList ++ e],
       { stats with queries_processed := stats.queries_processed + 1,
                    hybrid_queries := stats.hybrid_queries + 1 }) := by
  rw [process_query, if_neg hne, if_neg (Nat.not_lt.mpr hlen)]
  simp only [dispatch, hint, handle_hybrid, herr]

/-- The orchestrator's behavior on the 10001-character all-digits query:
validation passes, classification is Hybrid, `infer` rejects the prompt,
and the output collapses to the single error-tagged token. -/
lemma process_query_replicate_10001 (det : Text → Except Text Text)
    (cfg : ModelConfig) (stats : OrchestratorStats) :
    process_query det cfg stats (List.replicate 10001 '1') =
      (["[error] Failed to process hybrid query: Prompt exceeds maximum length of 10000 characters".toList],
       { stats with queries_processed := stats.queries_processed + 1,
                    hybrid_queries := stats.hybrid_queries + 1 }) := by
  have hlen : (List.replicate 10001 '1').length = 10001 :=
    List.length_replicate 10001 '1'
  refine process_query_hybrid_infer_error det cfg stats ?_ ?_ ?_ ?_
  · exact List.ne_nil_of_length_pos (by rw [hlen]; decide)
  · rw [hlen]
    decide
  · exact classify_replicate_one (by decide)
  · exact infer_gt_limit cfg (by rw [hlen]; decide)

/-- The verification loop returns the concatenated templated lines in claim
order together with the verified and failed counts. -/
lemma verifyClaims_eq (det : Text → Except Text Text) :
    ∀ claims : List Text,
      verifyClaims det claims =
        ((claims.map (reportLine det)).flatten,
         claims.countP (claimOk det),
         claims.countP fun c => !(claimOk det c))
  | [] => rfl
  | claim :: rest => by
    simp only [verifyClaims, verifyClaims_eq det rest]
    cases hd : det claim <;>
      simp [reportLine, claimOk, hd, List.countP_cons]

/-! ### Claims -/

/-- C3: `classify_intent` is a total, deterministic function of the query
text: with `has_math` and `has_creative` computed as fixed-keyword-set
membership over the lowercased query, (math, not creative) yields Logical,
(creative, not math) yields Creative, (both) yields Hybrid, and (neither)
yields Hybrid exactly when the text contains a digit, else Creative;
moreover the three documented example queries classify as documented. -/
theorem classify_table_and_examples :
    (∀ q : Text, classify_intent q =
      (match has_math (textToLower q), has_creative (textToLower q) with
       | true, false => Intent.Logical
       | false, true => Intent.Creative
       | true, true => Intent.Hybrid
       | false, false =>
         if q.any Char.isDigit then Intent.Hybrid else Intent.Creative)) ∧
    classify_intent "Calculate 2 + 2".toList = .Logical ∧
    classify_intent "Explain quantum entanglement".toList = .Creative ∧
    classify_intent "Calculate the area of a circle and explain why".toList = .Hybrid :=
  ⟨fun _ => rfl, by decide, by decide, by decide⟩

/-- C7: `extract_claims` returns the leftmost, maximal, non-overlapping
arithmetic-expression matches in left-to-right order, and exactly when
there are none it returns the bare numeric literals in left-to-right
order capped at the first 5; in particular the documented examples,
including the fallback `extract_claims "the year 1999" = ["1999"]`. -/
theorem extract_claims_spec :
    (∀ t : Text, extract_claims t =
      (if (findIter matchExpr t).isEmpty then (findIter matchNumber t).take 5
       else findIter matchExpr t)) ∧
    extract_claims "the year 1999".toList = ["1999".toList] ∧
    extract_claims "25 * 4 + 100 is the result".toList = ["25 * 4 + 100".toList] ∧
    extract_claims "a 1 b 2 c 3 d 4 e 5 f 6".toList =
      ["1", "2", "3", "4", "5"].map String.toList :=
  ⟨fun _ => rfl, by decide, by decide, by decide⟩

/-- C4 counterexample: the all-whitespace (but non-empty) query `" "` is
NOT rejected before classification: it passes validation, is classified
Creative, dispatched to the generative backend (whose stream yields the
completion token `"\n"`), and the counters are bumped — contradicting the
claimed short-circuit to a single descriptive error token with no backend
calls. -/
theorem whitespace_query_dispatched_cex :
    process_query detOk sampleCfg OrchestratorStats.init " ".toList =
      ([['\n']],
       { queries_processed := 1, creative_queries := 1,
         logical_queries := 0, hybrid_queries := 0 }) ∧
    (['\n'] : Text) ≠ "[error] Query cannot be empty".toList :=
  ⟨by decide, by decide⟩

/-- C4 amended: only the genuinely empty query is rejected before
classification and dispatch: `process_query` short-circuits to completion
with the single descriptive error token and no counter change, so the
classifier is never invoked and no backend call is made on the empty
query.  (All-whitespace non-empty queries are dispatched normally.) -/
theorem empty_query_rejected (det : Text → Except Text Text)
    (cfg : ModelConfig) (stats : OrchestratorStats) :
    process_query det cfg stats [] =
      (["[error] Query cannot be empty".toList], stats) := rfl

/-- C6: for every Logical-classified valid query exactly one
deterministic-adapter call decides the output: the single adapter-result
token on success, or the single error-tagged token on failure (never a
hard error), with the logical and total counters bumped; `"2 + 2"`
classifies Logical, and when the adapter evaluates `"2 + 2"` to `r` the
whole response is exactly `[r]`. -/
theorem logical_single_adapter_token (det : Text → Except Text Text)
    (cfg : ModelConfig) (stats : OrchestratorStats) (query : Text)
    (hne : query ≠ []) (hlen : query.length ≤ queryMaxLen)
    (hint : classify_intent query = .Logical) :
    process_query det cfg stats query =
      ((match det query with
        | .ok r => [r]
        | .error e => ["[deterministic error] ".toList ++ e]),
       { stats with queries_processed := stats.queries_processed + 1,
                    logical_queries := stats.logical_queries + 1 }) ∧
    classify_intent "2 + 2".toList = .Logical ∧
    (∀ r : Text, det "2 + 2".toList = .ok r →
      process_query det cfg stats "2 + 2".toList =
        ([r],
         { stats with queries_processed := stats.queries_processed + 1,
                      logical_queries := stats.logical_queries + 1 })) := by
  have h2 : classify_intent "2 + 2".toList = .Logical := by decide
  refine ⟨?_, h2, ?_⟩
  · rw [process_query, if_neg hne, if_neg (Nat.not_lt.mpr hlen)]
    simp only [dispatch, hint, handle_logical]
  · intro r hr
    rw [process_query, if_neg (by decide), if_neg (by decide)]
    simp only [dispatch, h2, handle_logical, hr]

/-- C6 witness: with an adapter evaluating everything to `"4"`, the query
`"2 + 2"` yields exactly the one token `"4"`. -/
theorem logical_single_adapter_token_witness :
    process_query detFour sampleCfg OrchestratorStats.init "2 + 2".toList =
      (["4".toList],
       { queries_processed := 1, creative_queries := 0,
         logical_queries := 1, hybrid_queries := 0 }) :=
  (logical_single_adapter_token detFour sampleCfg OrchestratorStats.init
      "2 + 2".toList (by decide) (by decide) (by decide)).2.2 "4".toList rfl

/-- C1 counterexample: on the 10001-digit Hybrid query the `infer` call
fails, and `process_query` emits ONLY the error-tagged token: the
completion token `"\n"`, which the forwarded generative stream always
yields, is absent from the output, so the primary stream is not emitted. -/
theorem hybrid_infer_error_stream_dropped_cex :
    (process_query detOk sampleCfg OrchestratorStats.init
        (List.replicate 10001 '1')).1 =
      ["[error] Failed to process hybrid query: Prompt exceeds maximum length of 10000 characters".toList] ∧
    ['\n'] ∈ stream_tokens (List.replicate 10001 '1') ∧
    ['\n'] ∉ (process_query detOk sampleCfg OrchestratorStats.init
        (List.replicate 10001 '1')).1 := by
  have hp := process_query_replicate_10001 detOk sampleCfg OrchestratorStats.init
  refine ⟨by rw [hp], ?_, ?_⟩
  · exact List.mem_append_right _ (List.mem_singleton.mpr rfl)
  · rw [hp]
    intro hmem
    rw [List.mem_singleton] at hmem
    exact absurd hmem (by decide)

/-- C1 amended: for every valid Hybrid query whose `infer` call fails, the
output sequence is exactly the single error-tagged token in place of the
whole response; the forwarded generative stream's tokens are NOT emitted
(the stream obtained before `infer` is dropped). -/
theorem hybrid_infer_error_single_token (det : Text → Except Text Text)
    (cfg : ModelConfig) (stats : OrchestratorStats) (query e : Text)
    (hne : query ≠ []) (hlen : query.length ≤ queryMaxLen)
    (hint : classify_intent query = .Hybrid)
    (herr : infer cfg query = .error e) :
    process_query det cfg stats query =
      (["[error] Failed to process hybrid query: ".toList ++ e],
       { stats with queries_processed := stats.queries_processed + 1,
                    hybrid_queries := stats.hybrid_queries + 1 }) :=
  process_query_hybrid_infer_error det cfg stats hne hlen hint herr

/-- C1 amended witness: the 10001-digit query is valid, Hybrid, its prompt
is rejected by `infer`, and the whole response is the single error token. -/
theorem hybrid_infer_error_single_token_witness :
    process_query detOk sampleCfg OrchestratorStats.init (List.replicate 10001 '1') =
      (["[error] Failed to process hybrid query: ".toList ++
          "Prompt exceeds maximum length of 10000 characters".toList],
       { queries_processed := 1, creative_queries := 0,
         logical_queries := 0, hybrid_queries := 1 }) :=
  hybrid_infer_error_single_token detOk sampleCfg OrchestratorStats.init _ _
    (List.ne_nil_of_length_pos (by rw [List.length_replicate]; decide))
    (by rw [List.length_replicate]; decide)
    (classify_replicate_one (by decide))
    (infer_gt_limit sampleCfg (by rw [List.length_replicate]; decide))

/-- C2: for every valid Hybrid query whose `infer` call succeeds, the
output sequence equals the generative stream's tokens in their original
order followed by exactly one verification-report token as the final
element; no verification text appears before or between the generative
tokens. -/
theorem hybrid_stream_then_single_report (det : Text → Except Text Text)
    (cfg : ModelConfig) (stats : OrchestratorStats) (query draft : Text)
    (hne : query ≠ []) (hlen : query.length ≤ queryMaxLen)
    (hint : classify_intent query = .Hybrid)
    (hok : infer cfg query = .ok draft) :
    process_query det cfg stats query =
      (stream_tokens query ++ [renderVerification det (extract_claims draft)],
       { stats with queries_processed := stats.queries_processed + 1,
                    hybrid_queries := stats.hybrid_queries + 1 }) := by
  rw [process_query, if_neg hne, if_neg (Nat.not_lt.mpr hlen)]
  simp only [dispatch, hint, handle_hybrid, hok]

/-- C2 witness: the Hybrid query `"7"` with the sample backends: the output
is the two generative stream tokens followed by the one report token. -/
theorem hybrid_stream_then_single_report_witness :
    process_query detOk sampleCfg OrchestratorStats.init "7".toList =
      (stream_tokens "7".toList ++
        [renderVerification detOk
          (extract_claims "7\n\n[LLM draft - temp: 0.7, max_tokens: 2048]".toList)],
       { queries_processed := 1, creative_queries := 0,
         logical_queries := 0, hybrid_queries := 1 }) :=
  hybrid_stream_then_single_report detOk sampleCfg OrchestratorStats.init
    "7".toList _ (by decide) (by decide) (by decide) rfl

/-- C5: a query of exactly the maximum length (`queryMaxLen = 50000`) is
accepted and dispatched normally, bumping the total counter by one; a
query one character beyond the maximum short-circuits to the single
validation-diagnostic token with no classification, no adapter call and
no counter change. -/
theorem boundary_length_accept_reject (det : Text → Except Text Text)
    (cfg : ModelConfig) (stats : OrchestratorStats) (q1 q2 : Text)
    (h1 : q1.length = queryMaxLen) (h2 : q2.length = queryMaxLen + 1) :
    process_query det cfg stats q1 = dispatch det cfg stats q1 ∧
    (process_query det cfg stats q1).2.queries_processed =
      stats.queries_processed + 1 ∧
    process_query det cfg stats q2 =
      (["[error] Query exceeds maximum length".toList], stats) := by
  have hne : q1 ≠ [] := List.ne_nil_of_length_pos (by rw [h1]; decide)
  have hq1 : process_query det cfg stats q1 = dispatch det cfg stats q1 := by
    rw [process_query, if_neg hne, if_neg (by rw [h1]; exact Nat.lt_irrefl _)]
  refine ⟨hq1, ?_, ?_⟩
  · rw [hq1]
    exact dispatch_total det cfg stats q1
  · have hne2 : q2 ≠ [] := List.ne_nil_of_length_pos (by rw [h2]; decide)
    rw [process_query, if_neg hne2, if_pos (by rw [h2]; exact Nat.lt_succ_self _)]

/-- C5 witness: the 50000-digit query dispatches normally and bumps the
total; the 50001-digit query is rejected with the validation token and
unchanged counters. -/
theorem boundary_length_accept_reject_witness :
    (process_query detOk sampleCfg OrchestratorStats.init (List.replicate 50000 '1') =
       dispatch detOk sampleCfg OrchestratorStats.init (List.replicate 50000 '1')) ∧
    (process_query detOk sampleCfg OrchestratorStats.init
        (List.replicate 50000 '1')).2.queries_processed = 1 ∧
    process_query detOk sampleCfg OrchestratorStats.init (List.replicate 50001 '1') =
      (["[error] Query exceeds maximum length".toList], OrchestratorStats.init) :=
  boundary_length_accept_reject detOk sampleCfg OrchestratorStats.init _ _
    (by rw [List.length_replicate]; decide) (by rw [List.length_replicate]; decide)

/-- C9: one `process_query` call on a valid query bumps the matching
per-intent counter and the total counter by exactly one each and leaves
the other per-intent counters unchanged; no call ever decrements any
counter; and the counters start at zero at orchestrator construction. -/
theorem stats_counters (det : Text → Except Text Text) (cfg : ModelConfig)
    (stats : OrchestratorStats) (query : Text)
    (hne : query ≠ []) (hlen : query.length ≤ queryMaxLen) :
    (process_query det cfg stats query).2 =
      (match classify_intent query with
       | .Creative =>
         { stats with queries_processed := stats.queries_processed + 1,
                      creative_queries := stats.creative_queries + 1 }
       | .Logical =>
         { stats with queries_processed := stats.queries_processed + 1,
                      logical_queries := stats.logical_queries + 1 }
       | .Hybrid =>
         { stats with queries_processed := stats.queries_processed + 1,
                      hybrid_queries := stats.hybrid_queries + 1 }) ∧
    (∀ (s : OrchestratorStats) (q : Text),
      s.queries_processed ≤ (process_query det cfg s q).2.queries_processed ∧
      s.creative_queries ≤ (process_query det cfg s q).2.creative_queries ∧
      s.logical_queries ≤ (process_query det cfg s q).2.logical_queries ∧
      s.hybrid_queries ≤ (process_query det cfg s q).2.hybrid_queries) ∧
    OrchestratorStats.init =
      { queries_processed := 0, creative_queries := 0,
        logical_queries := 0, hybrid_queries := 0 } := by
  refine ⟨?_, ?_, rfl⟩
  · rw [process_query, if_neg hne, if_neg (Nat.not_lt.mpr hlen)]
    cases hI : classify_intent query <;> simp [dispatch, hI]
  · intro s q
    by_cases hq : q = []
    · simp [process_query, hq]
    · by_cases hl : q.length > queryMaxLen
      · simp [process_query, hq, hl]
      · rw [process_query, if_neg hq, if_neg hl]
        cases hI : classify_intent q <;> simp [dispatch, hI]

/-- C9 witness: one call on the valid Hybrid query `"7"` starting from the
zero counters: the total and hybrid counters become 1, the others stay 0,
and the monotonicity and zero-initialization conjuncts instantiate. -/
theorem stats_counters_witness :
    (process_query detOk sampleCfg OrchestratorStats.init "7".toList).2 =
      (match classify_intent "7".toList with
       | .Creative =>
         { OrchestratorStats.init with queries_processed := 1, creative_queries := 1 }
       | .Logical =>
         { OrchestratorStats.init with queries_processed := 1, logical_queries := 1 }
       | .Hybrid =>
         { OrchestratorStats.init with queries_processed := 1, hybrid_queries := 1 }) ∧
    (∀ (s : OrchestratorStats) (q : Text),
      s.queries_processed ≤ (process_query detOk sampleCfg s q).2.queries_processed ∧
      s.creative_queries ≤ (process_query detOk sampleCfg s q).2.creative_queries ∧
      s.logical_queries ≤ (process_query detOk sampleCfg s q).2.logical_queries ∧
      s.hybrid_queries ≤ (process_query detOk sampleCfg s q).2.hybrid_queries) ∧
    OrchestratorStats.init =
      { queries_processed := 0, creative_queries := 0,
        logical_queries := 0, hybrid_queries := 0 } :=
  stats_counters detOk sampleCfg OrchestratorStats.init "7".toList
    (by decide) (by decide)

/-- C10: the generative adapter's `infer` rejects the empty prompt and
every prompt longer than 10000 characters with an error, a limit strictly
below the orchestrator's 50000-character query bound; consequently every
valid Hybrid query with more than 10000 characters passes orchestrator
validation yet yields exactly one error-tagged hybrid-failure token, with
no generative tokens and no verification report. -/
theorem infer_limit_below_query_limit (det : Text → Except Text Text)
    (cfg : ModelConfig) (stats : OrchestratorStats) (query : Text)
    (h1 : promptMaxLen < query.length) (h2 : query.length ≤ queryMaxLen)
    (hint : classify_intent query = .Hybrid) :
    infer cfg [] = .error "Prompt cannot be empty".toList ∧
    (∀ p : Text, promptMaxLen < p.length →
      infer cfg p = .error "Prompt exceeds maximum length of 10000 characters".toList) ∧
    promptMaxLen < queryMaxLen ∧
    process_query det cfg stats query =
      (["[error] Failed to process hybrid query: Prompt exceeds maximum length of 10000 characters".toList],
       { stats with queries_processed := stats.queries_processed + 1,
                    hybrid_queries := stats.hybrid_queries + 1 }) := by
  refine ⟨rfl, fun p hp => infer_gt_limit cfg hp, by decide, ?_⟩
  have h1' : 10000 < query.length := h1
  have hne : query ≠ [] := List.ne_nil_of_length_pos (by omega)
  exact process_query_hybrid_infer_error det cfg stats hne h2 hint
    (infer_gt_limit cfg h1)

/-- C10 witness: the 10001-digit query is Hybrid, between the two limits,
and collapses to the single hybrid-failure token. -/
theorem infer_limit_below_query_limit_witness :
    infer sampleCfg [] = .error "Prompt cannot be empty".toList ∧
    (∀ p : Text, promptMaxLen < p.length →
      infer sampleCfg p = .error "Prompt exceeds maximum length of 10000 characters".toList) ∧
    promptMaxLen < queryMaxLen ∧
    process_query detFour sampleCfg OrchestratorStats.init (List.replicate 10001 '1') =
      (["[error] Failed to process hybrid query: Prompt exceeds maximum length of 10000 characters".toList],
       { queries_processed := 1, creative_queries := 0,
         logical_queries := 0, hybrid_queries := 1 }) :=
  infer_limit_below_query_limit detFour sampleCfg OrchestratorStats.init _
    (by rw [List.length_replicate]; decide)
    (by rw [List.length_replicate]; decide)
    (classify_replicate_one (by decide))

/-- C8 counterexample: in the successful Hybrid run on `"7"` with the
sample backends at least one claim is verified, yet the single
verification-report token contains no `'='` character anywhere: success
lines join the claim text and the result with `" → "`, not with `"="` as
the claim states. -/
theorem report_uses_arrow_not_equals_cex :
    (process_query detOk sampleCfg OrchestratorStats.init "7".toList).1.getLast? =
      some "\n[Verification Results: 3 verified, 0 failed]\n✓ Claim: 7 → R\n✓ Claim: 0.7 → R\n✓ Claim: 2048 → R\n".toList ∧
    '=' ∉ "\n[Verification Results: 3 verified, 0 failed]\n✓ Claim: 7 → R\n✓ Claim: 0.7 → R\n✓ Claim: 2048 → R\n".toList :=
  ⟨by decide, by decide⟩

/-- C8 amended: in every successful Hybrid run the verification-report
token is rendered by the fixed per-line template with `" → "` as the
separator — a success marker + the claim text + `" → "` + the evaluator's
result for a verified claim, or a failure marker + the claim text +
`" → Error: "` + the error message for a failed claim, one line per claim
in claim order — and the one-line verified/failed counts header is present
exactly when at least one claim was processed: the rendered report equals
the spec-side template `reportSpec`. -/
theorem report_template_arrow (det : Text → Except Text Text)
    (claims : List Text) :
    renderVerification det claims = reportSpec det claims := by
  cases claims with
  | nil => rfl
  | cons claim rest =>
    simp only [renderVerification, verifyClaims_eq, reportSpec]
    rw [if_pos ?hc, if_neg (by simp)]
    case hc =>
      cases hd : claimOk det claim
      · have hcount : 0 < List.countP (fun c => !(claimOk det c)) (claim :: rest) := by
          rw [List.countP_cons]
          simp [hd]
        simp [hcount]
      · have hcount : 0 < List.countP (claimOk det) (claim :: rest) := by
          rw [List.countP_cons]
          simp [hd]
        simp [hcount]
